import Mathlib

/-!
Shallow embedding of the AI journal-parsing pipeline of the AI-Health-Journal
application (controllers/aiController.js: parseJournalEntry, retryProcessing,
together with the Journal, Meal, Medicine, BodyStat and Test mongoose models),
and proofs about its state-machine, fan-out and retry behaviour.

Modelling conventions:
- Mongo ObjectIds, user ids and dates are abstract and modelled as Nat.
- JSON numbers appearing in the decoded structure are modelled as Int; the
  claims under study only compare them for JavaScript truthiness and equality.
- The external completion service call is modelled by an environment value:
  either a transport error (the axios rejection, carrying the error message)
  or raw text output together with its JSON.parse outcome (the decode is
  JSON.parse, which either yields the structure or throws).
- Each `Model.create` of a derived record either persists the constructed
  document (after the schema pre-save hooks) or rejects; rejection is modelled
  by per-category oracles in the environment which give the message of the
  thrown error for the n-th create of that category. A rejection propagates
  to the enclosing catch block exactly as a thrown promise rejection does.
- Each persistence step appends a snapshot of the database to an execution
  trace, so that intermediate observable states can be reasoned about.
-/

/-- Processing status of a journal entry (Journal model, field
`processingStatus`, enum pending/processing/completed/failed). -/
inductive PStatus where
  | pending
  | processing
  | completed
  | failed
  deriving DecidableEq, Repr

/-- Whitespace trimming as performed by `rawText.trim()` (and by the mongoose
`trim: true` schema option): drop leading and trailing whitespace characters.
Defined by structural recursion over the character list of the string. -/
def jsTrim (s : String) : String :=
  String.mk (((s.data.dropWhile Char.isWhitespace).reverse.dropWhile
    Char.isWhitespace).reverse)

/-- JavaScript truthiness of an optional number: `undefined` and `0` are
falsy. Mirrors guards such as `if (parsedData.bodyStats.weightKg)`. -/
def truthyNum (o : Option Int) : Bool :=
  decide (o.getD 0 ≠ 0)

/-- JavaScript truthiness of an optional string: `undefined` and the empty
string are falsy. -/
def truthyStr (o : Option String) : Bool :=
  decide (o.getD "" ≠ "")

/-- JavaScript `a || b` on an optional number with a number default,
as in `mealData.calories || 0`. -/
def jsNumOr (o : Option Int) (d : Int) : Int :=
  if truthyNum o then o.getD 0 else d

/-- JavaScript `a || b` on an optional string with a string default,
as in the controller expression defaulting a missing meal quantity to the
text 1 serving. -/
def jsStrOr (o : Option String) (d : String) : String :=
  if truthyStr o then o.getD "" else d

/-- JavaScript `a || b` on two strings, as in the catch block defaulting a
blank rejection message to the text AI API call failed. -/
def jsMsgOr (s d : String) : String :=
  if s = "" then d else s

/-- One meal block of the decoded structure (prompt schema: time, items,
quantity, calories; quantity and calories may be absent). -/
structure MealData where
  time : String
  items : List String
  quantity : Option String
  calories : Option Int
  deriving DecidableEq, Repr

/-- One medicine of the decoded structure (name, time, dosage). -/
structure MedicineData where
  name : String
  time : String
  dosage : Option String
  deriving DecidableEq, Repr

/-- The single body-stats object of the decoded structure; every field is
optional. -/
structure BodyStatsData where
  waterIntakeLiters : Option Int
  weightKg : Option Int
  sleepHours : Option Int
  steps : Option Int
  mood : Option String
  energy : Option String
  deriving DecidableEq, Repr

/-- Nested reference range of a decoded test. -/
structure RefRange where
  min : Option Int
  max : Option Int
  unit : Option String
  deriving DecidableEq, Repr

/-- One test of the decoded structure. -/
structure TestData where
  testName : String
  result : Option String
  resultValue : Option Int
  unit : Option String
  referenceRange : Option RefRange
  deriving DecidableEq, Repr

/-- The typed intermediate structure produced by a successful decode of the
model output (the JSON schema embedded in the system prompt). An absent
`meals`/`medicines`/`tests` array is identified with the empty list, since
the controller only ever tests `arr && arr.length > 0` and `arr?.length`. -/
structure ParsedData where
  meals : List MealData
  medicines : List MedicineData
  bodyStats : Option BodyStatsData
  tests : List TestData
  notes : Option String
  deriving DecidableEq, Repr

/-- A persisted JournalEntry (Journal model), restricted to the fields the
parsing pipeline creates or mutates. -/
structure JournalEntry where
  id : Nat
  userId : Nat
  date : Nat
  rawText : String
  parsedData : Option ParsedData
  isProcessed : Bool
  processingStatus : PStatus
  processingError : Option String
  aiResponse : Option String
  deriving DecidableEq, Repr

/-- A food item subdocument of a Meal record (foodItemSchema). The pipeline
always writes a concrete quantity and calorie number for each item. -/
structure FoodItem where
  name : String
  quantity : String
  calories : Int
  deriving DecidableEq, Repr

/-- A persisted Meal record (Meal model), restricted to the fields the
pipeline writes. -/
structure MealRecord where
  userId : Nat
  date : Nat
  time : String
  foodItems : List FoodItem
  totalCalories : Int
  notes : String
  isFromJournal : Bool
  journalEntryId : Nat
  deriving DecidableEq, Repr

/-- A persisted Medicine record (Medicine model), restricted to the fields
the pipeline writes. -/
structure MedicineRecord where
  userId : Nat
  name : String
  dosage : Option String
  time : String
  startDate : Nat
  isFromJournal : Bool
  journalEntryId : Nat
  deriving DecidableEq, Repr

/-- A persisted BodyStat record (BodyStat model), restricted to the fields
the pipeline writes; a `none` field was not set by the fan-out writer. -/
structure BodyStatRecord where
  userId : Nat
  date : Nat
  waterIntake : Option Int
  weight : Option Int
  sleepHours : Option Int
  steps : Option Int
  mood : Option String
  energy : Option String
  isFromJournal : Bool
  journalEntryId : Nat
  deriving DecidableEq, Repr

/-- A persisted Test record (Test model), restricted to the fields the
pipeline writes. -/
structure TestRecord where
  userId : Nat
  testName : String
  date : Nat
  result : Option String
  resultValue : Option Int
  unit : Option String
  referenceRange : Option RefRange
  isFromJournal : Bool
  journalEntryId : Nat
  deriving DecidableEq, Repr

/-- The four derived-record collections. -/
structure Stores where
  meals : List MealRecord
  medicines : List MedicineRecord
  bodyStats : List BodyStatRecord
  tests : List TestRecord
  deriving DecidableEq, Repr

/-- The whole persistent state: the journal collection plus the four
derived-record collections. -/
structure DB where
  journals : List JournalEntry
  stores : Stores
  deriving DecidableEq, Repr

/-- The empty database. -/
def DB.empty : DB :=
  { journals := [], stores := { meals := [], medicines := [], bodyStats := [], tests := [] } }

/-- Outcome of the completion-service call: a transport error (network,
status, auth — the axios rejection message), or raw text content paired with
its JSON.parse outcome (`none` when JSON.parse throws on that text). -/
inductive AiResult where
  | transportError (msg : String)
  | output (raw : String) (decoded : Option ParsedData)
  deriving DecidableEq, Repr

/-- Environment of one pipeline run: the completion-service outcome and, for
each derived-record category, an oracle giving for the n-th create of that
category either `none` (the create resolves) or `some msg` (the create
rejects with that error message). -/
structure Env where
  ai : AiResult
  mealW : Nat → Option String
  medW : Nat → Option String
  statW : Option String
  testW : Nat → Option String

/-- The per-category creation counts reported in the success response
(`createdItems`). -/
structure Counts where
  meals : Nat
  medicines : Nat
  bodyStats : Nat
  tests : Nat
  deriving DecidableEq, Repr

/-- The response payload of a parse or retry request, restricted to the
fields the pipeline sets. -/
structure Response where
  status : Nat
  success : Bool
  message : String
  journalId : Option Nat
  parsedData : Option ParsedData
  createdItems : Option Counts
  rawResponse : Option String
  deriving DecidableEq, Repr

/-- Result of one pipeline run: the final database, the response sent, and
the trace of database snapshots after each persistence step, in order. -/
structure RunResult where
  db : DB
  resp : Response
  states : List DB
  deriving Repr

/-- `Journal.create` inside parseJournalEntry: the document constructed from
the request body (userId, date defaulted to now, trimmed raw text, status
`processing`); the remaining fields take their schema defaults. -/
def mkJournalEntry (uid freshId now : Nat) (rawText : String) (dateArg : Option Nat) :
    JournalEntry :=
  { id := freshId
    userId := uid
    date := dateArg.getD now
    rawText := jsTrim rawText
    parsedData := none
    isProcessed := false
    processingStatus := .processing
    processingError := none
    aiResponse := none }

/-- Append a newly created journal document to the journal collection. -/
def insertJournal (db : DB) (e : JournalEntry) : DB :=
  { db with journals := db.journals ++ [e] }

/-- `Journal.findByIdAndUpdate(jid, fields)`: apply the field update to the
document with the given id, leaving every other document unchanged. -/
def updateJournal (db : DB) (jid : Nat) (f : JournalEntry → JournalEntry) : DB :=
  { db with journals := db.journals.map (fun e => if e.id = jid then f e else e) }

/-- `Journal.findOne({_id: jid, userId: uid})`. -/
def findJournal (db : DB) (jid uid : Nat) : Option JournalEntry :=
  (db.journals.filter (fun e => e.id = jid && e.userId = uid)).head?

/-- The field update applied by the catch block of parseJournalEntry,
reached on a transport failure of the completion-service call and equally on
a rejected derived-record create: it sets processingStatus to failed and
processingError to the rejection message, defaulting to AI API call failed
when that message is blank. -/
def failCatchUpdate (msg : String) (e : JournalEntry) : JournalEntry :=
  { e with processingStatus := .failed
           processingError := some (jsMsgOr msg "AI API call failed") }

/-- The field update applied when JSON.parse throws on the model output:
it sets processingStatus to failed, processingError to the fixed decode
failure message, and keeps the raw model text in aiResponse. -/
def failDecodeUpdate (raw : String) (e : JournalEntry) : JournalEntry :=
  { e with processingStatus := .failed
           processingError := some "Failed to parse AI response as JSON"
           aiResponse := some raw }

/-- The field update applied on a successful decode: it sets parsedData,
marks isProcessed, sets processingStatus to completed and stores the raw
model text in aiResponse, all in one findByIdAndUpdate call. -/
def completeUpdate (pd : ParsedData) (raw : String) (e : JournalEntry) : JournalEntry :=
  { e with parsedData := some pd
           isProcessed := true
           processingStatus := .completed
           aiResponse := some raw }

/-- The field update applied by retryProcessing before re-entering the
pipeline: it sets processingStatus to pending and clears processingError. -/
def retryResetUpdate (e : JournalEntry) : JournalEntry :=
  { e with processingStatus := .pending, processingError := none }

/-- The food item subdocument built for one decoded meal item: the name is
the item text, the quantity is the shared meal quantity defaulting to
1 serving, and the calorie value is the shared meal calories defaulting
to 0. -/
def mkFoodItem (m : MealData) (it : String) : FoodItem :=
  { name := it
    quantity := jsStrOr m.quantity "1 serving"
    calories := jsNumOr m.calories 0 }

/-- The Meal document constructed by the fan-out writer for one decoded meal
(before the schema pre-save hook runs). -/
def mkMealRecord (uid jid date : Nat) (m : MealData) : MealRecord :=
  { userId := uid
    date := date
    time := m.time
    foodItems := m.items.map (mkFoodItem m)
    totalCalories := 0
    notes := "Parsed from journal entry"
    isFromJournal := true
    journalEntryId := jid }

/-- The Meal schema pre-save hook: when the food item list is non-empty,
totalCalories is recomputed as the sum of the item calorie values. -/
def mealPreSave (m : MealRecord) : MealRecord :=
  if m.foodItems.length > 0 then
    { m with totalCalories := m.foodItems.foldl (fun t i => t + i.calories) 0 }
  else m

/-- The Medicine document constructed by the fan-out writer for one decoded
medicine. -/
def mkMedicineRecord (uid jid date : Nat) (m : MedicineData) : MedicineRecord :=
  { userId := uid
    name := m.name
    dosage := m.dosage
    time := m.time
    startDate := date
    isFromJournal := true
    journalEntryId := jid }

/-- The BodyStat document constructed by the fan-out writer: a field is set
exactly when the corresponding decoded field is JavaScript-truthy
(`if (parsedData.bodyStats.weightKg) { bodyStatsData.weight = ... }` and so
on for each field). -/
def mkBodyStatRecord (uid jid date : Nat) (bs : BodyStatsData) : BodyStatRecord :=
  { userId := uid
    date := date
    waterIntake := if truthyNum bs.waterIntakeLiters then bs.waterIntakeLiters else none
    weight := if truthyNum bs.weightKg then bs.weightKg else none
    sleepHours := if truthyNum bs.sleepHours then bs.sleepHours else none
    steps := if truthyNum bs.steps then bs.steps else none
    mood := if truthyStr bs.mood then bs.mood else none
    energy := if truthyStr bs.energy then bs.energy else none
    isFromJournal := true
    journalEntryId := jid }

/-- The Test document constructed by the fan-out writer for one decoded
test. -/
def mkTestRecord (uid jid date : Nat) (t : TestData) : TestRecord :=
  { userId := uid
    testName := t.testName
    date := date
    result := t.result
    resultValue := t.resultValue
    unit := t.unit
    referenceRange := t.referenceRange
    isFromJournal := true
    journalEntryId := jid }

/-- One sequential `for ... await Model.create(...)` loop of the fan-out
writer. `ok n` decides the fate of the n-th create of this category; on the
first rejection the loop aborts (the rejection propagates to the enclosing
catch), returning the stores reached so far, the snapshot after each
successful create, and the thrown message. -/
def createLoop {α : Type} (ok : Nat → Option String) (mk : α → Stores → Stores) :
    Nat → List α → Stores → Stores × List Stores × Option String
  | _, [], s => (s, [], none)
  | k, x :: rest, s =>
    match ok k with
    | some msg => (s, [], some msg)
    | none =>
      let s1 := mk x s
      let r := createLoop ok mk (k + 1) rest s1
      (r.1, s1 :: r.2.1, r.2.2)

/-- Append one Meal record (after its pre-save hook) to the meal store. -/
def putMeal (uid jid date : Nat) (m : MealData) (s : Stores) : Stores :=
  { s with meals := s.meals ++ [mealPreSave (mkMealRecord uid jid date m)] }

/-- Append one Medicine record to the medicine store. -/
def putMedicine (uid jid date : Nat) (m : MedicineData) (s : Stores) : Stores :=
  { s with medicines := s.medicines ++ [mkMedicineRecord uid jid date m] }

/-- Append one BodyStat record to the body-stat store. -/
def putBodyStat (uid jid date : Nat) (bs : BodyStatsData) (s : Stores) : Stores :=
  { s with bodyStats := s.bodyStats ++ [mkBodyStatRecord uid jid date bs] }

/-- Append one Test record to the test store. -/
def putTest (uid jid date : Nat) (t : TestData) (s : Stores) : Stores :=
  { s with tests := s.tests ++ [mkTestRecord uid jid date t] }

/-- The fan-out writer (controller lines creating meals, medicines, body
stats and tests from `parsedData`): four sequential groups of awaited
creates inside one try block. The guards
`if (parsedData.meals && parsedData.meals.length > 0)` are represented by
running the loop on the (possibly empty) list, which writes nothing on an
empty list exactly as the skipped guard does; the body-stats group runs
under `if (parsedData.bodyStats)`, that is, whenever the object is present.
The first rejected create aborts everything after it. Returns the final
stores, the snapshots after each successful create, and the first thrown
message if any. -/
def fanOut (env : Env) (uid jid date : Nat) (pd : ParsedData) (s : Stores) :
    Stores × List Stores × Option String :=
  let r1 := createLoop env.mealW (putMeal uid jid date) 0 pd.meals s
  match r1.2.2 with
  | some msg => (r1.1, r1.2.1, some msg)
  | none =>
    let r2 := createLoop env.medW (putMedicine uid jid date) 0 pd.medicines r1.1
    match r2.2.2 with
    | some msg => (r2.1, r1.2.1 ++ r2.2.1, some msg)
    | none =>
      let r3 :=
        match pd.bodyStats with
        | none => (r2.1, ([] : List Stores), (none : Option String))
        | some bs =>
          match env.statW with
          | some msg => (r2.1, [], some msg)
          | none =>
            let s3 := putBodyStat uid jid date bs r2.1
            (s3, [s3], none)
      match r3.2.2 with
      | some msg => (r3.1, r1.2.1 ++ r2.2.1 ++ r3.2.1, some msg)
      | none =>
        let r4 := createLoop env.testW (putTest uid jid date) 0 pd.tests r3.1
        (r4.1, r1.2.1 ++ r2.2.1 ++ r3.2.1 ++ r4.2.1, r4.2.2)

/-- The `createdItems` counts of the success response: computed from the
lengths of the decoded arrays (`parsedData.meals?.length || 0`, ...,
`parsedData.bodyStats ? 1 : 0`). -/
def mkCounts (pd : ParsedData) : Counts :=
  { meals := pd.meals.length
    medicines := pd.medicines.length
    bodyStats := if pd.bodyStats.isSome then 1 else 0
    tests := pd.tests.length }

/-- The 400 response sent when the request body has no non-blank text. -/
def invalidTextResp : Response :=
  { status := 400, success := false, message := "Journal text is required"
    journalId := none, parsedData := none, createdItems := none, rawResponse := none }

/-- The 500 response of the `catch (aiError)` block; it carries the id of
the created entry. -/
def aiFailResp (fid : Nat) : Response :=
  { status := 500, success := false
    message := "Failed to process journal entry with AI"
    journalId := some fid, parsedData := none, createdItems := none
    rawResponse := none }

/-- The 500 response sent when JSON.parse throws on the model output; it
carries the entry id and the raw model text. -/
def decodeFailResp (fid : Nat) (raw : String) : Response :=
  { status := 500, success := false, message := "Failed to parse AI response"
    journalId := some fid, parsedData := none, createdItems := none
    rawResponse := some raw }

/-- The 200 success response with the decoded structure and the
`createdItems` counts. -/
def successResp (fid : Nat) (pd : ParsedData) : Response :=
  { status := 200, success := true, message := "Journal entry parsed successfully"
    journalId := some fid, parsedData := some pd
    createdItems := some (mkCounts pd), rawResponse := none }

/-- The 404 response of retryProcessing when the entry is not found for the
requesting user. -/
def notFoundResp : Response :=
  { status := 404, success := false, message := "Journal entry not found"
    journalId := none, parsedData := none, createdItems := none, rawResponse := none }

/-- The 400 response of retryProcessing when the entry is not in `failed`
status. -/
def invalidStateResp : Response :=
  { status := 400, success := false
    message := "Journal entry is not in failed status"
    journalId := none, parsedData := none, createdItems := none, rawResponse := none }

/-- The controller `parseJournalEntry` (POST /api/ai/parse-journal).
Arguments: the environment, the authenticated user id, the request body
(`rawText`, optional `date`), the current time, the fresh ObjectId that
`Journal.create` will assign, and the database. Returns the final database,
the response, and the trace of database snapshots after each persistence
step. -/
def parseJournalEntry (env : Env) (uid : Nat) (rawText : String)
    (dateArg : Option Nat) (now freshId : Nat) (db : DB) : RunResult :=
  if jsTrim rawText = "" then
    { db := db, resp := invalidTextResp, states := [] }
  else
    let entry := mkJournalEntry uid freshId now rawText dateArg
    let db1 := insertJournal db entry
    match env.ai with
    | .transportError msg =>
      let db2 := updateJournal db1 freshId (failCatchUpdate msg)
      { db := db2, resp := aiFailResp freshId, states := [db1, db2] }
    | .output raw none =>
      let db2 := updateJournal db1 freshId (failDecodeUpdate raw)
      { db := db2, resp := decodeFailResp freshId raw, states := [db1, db2] }
    | .output raw (some pd) =>
      let entryDate := dateArg.getD now
      let db2 := updateJournal db1 freshId (completeUpdate pd raw)
      let fo := fanOut env uid freshId entryDate pd db2.stores
      let foStates := fo.2.1.map (fun s => { journals := db2.journals, stores := s : DB })
      let db3 : DB := { journals := db2.journals, stores := fo.1 }
      match fo.2.2 with
      | some msg =>
        let db4 := updateJournal db3 freshId (failCatchUpdate msg)
        { db := db4, resp := aiFailResp freshId
          states := [db1, db2] ++ foStates ++ [db4] }
      | none =>
        { db := db3, resp := successResp freshId pd
          states := [db1, db2] ++ foStates }

/-- The controller `retryProcessing` (POST /api/ai/retry/:journalId): look
the entry up for the requesting user; 404 when absent, 400 when its status
is not `failed`; otherwise reset the entry to `pending` with the error
cleared and re-invoke `parseJournalEntry` with the stored rawText and date
(which performs its own `Journal.create` under a fresh id). -/
def retryProcessing (env : Env) (uid jid : Nat) (now freshId : Nat) (db : DB) :
    RunResult :=
  match findJournal db jid uid with
  | none =>
    { db := db, resp := notFoundResp, states := [] }
  | some j =>
    if j.processingStatus ≠ PStatus.failed then
      { db := db, resp := invalidStateResp, states := [] }
    else
      let db1 := updateJournal db jid retryResetUpdate
      let r := parseJournalEntry env uid j.rawText (some j.date) now freshId db1
      { db := r.db, resp := r.resp, states := db1 :: r.states }

/-- The states reachable by the pipeline operations from the empty database:
intermediate snapshots and final states of submit and retry runs, where the
id assigned by `Journal.create` is fresh (ObjectIds never collide with an
existing document). -/
inductive Reachable : DB → Prop where
  | init : Reachable DB.empty
  | parseMid (db : DB) (env : Env) (uid : Nat) (rawText : String)
      (dateArg : Option Nat) (now freshId : Nat) (s : DB) :
      Reachable db → (∀ e ∈ db.journals, e.id ≠ freshId) →
      s ∈ (parseJournalEntry env uid rawText dateArg now freshId db).states →
      Reachable s
  | parseFin (db : DB) (env : Env) (uid : Nat) (rawText : String)
      (dateArg : Option Nat) (now freshId : Nat) :
      Reachable db → (∀ e ∈ db.journals, e.id ≠ freshId) →
      Reachable (parseJournalEntry env uid rawText dateArg now freshId db).db
  | retryMid (db : DB) (env : Env) (uid jid : Nat) (now freshId : Nat) (s : DB) :
      Reachable db → (∀ e ∈ db.journals, e.id ≠ freshId) →
      s ∈ (retryProcessing env uid jid now freshId db).states →
      Reachable s
  | retryFin (db : DB) (env : Env) (uid jid : Nat) (now freshId : Nat) :
      Reachable db → (∀ e ∈ db.journals, e.id ≠ freshId) →
      Reachable (retryProcessing env uid jid now freshId db).db

/-- The spec §4.4 invariant on one entry: `processingError` is non-empty
exactly when the status is `failed` (an absent error and an empty trimmed
string both count as empty). -/
def entryInv (e : JournalEntry) : Prop :=
  e.processingError.getD "" ≠ "" ↔ e.processingStatus = PStatus.failed

instance (e : JournalEntry) : Decidable (entryInv e) := by
  unfold entryInv; infer_instance

/-- The invariant on every entry of a database. -/
def dbInv (db : DB) : Prop :=
  ∀ e ∈ db.journals, entryInv e

/-! ### Concrete fixtures used by witnesses and counterexamples -/

/-- An environment in which every derived-record create resolves. -/
def mkEnvOk (ai : AiResult) : Env :=
  { ai := ai, mealW := fun _ => none, medW := fun _ => none
    statW := none, testW := fun _ => none }

/-- The empty decoded structure. -/
def pdEmpty : ParsedData :=
  { meals := [], medicines := [], bodyStats := none, tests := [], notes := none }

/-- A journal entry in status `completed`, used to exercise the invalid
retry rejection. -/
def jCompleted : JournalEntry :=
  { id := 1, userId := 7, date := 4, rawText := "ate rice"
    parsedData := some pdEmpty, isProcessed := true
    processingStatus := .completed, processingError := none
    aiResponse := some "RAW" }

/-- A database holding only the completed entry. -/
def dbCompleted : DB := { DB.empty with journals := [jCompleted] }

/-- A one-meal decoded structure for exercising the write ordering. -/
def pdOneMeal : ParsedData :=
  { meals := [{ time := "noon", items := ["rice"], quantity := none, calories := none }]
    medicines := [], bodyStats := none, tests := [], notes := none }

/-- A concrete successful run over the one-meal structure. -/
def runOneMeal : RunResult :=
  parseJournalEntry (mkEnvOk (.output "RAW3" (some pdOneMeal))) 7 "ate rice"
    none 5 1 DB.empty

/-- A decoded structure with one meal and one medicine. -/
def pdMealMed : ParsedData :=
  { meals := [{ time := "noon", items := ["rice"], quantity := none, calories := none }]
    medicines := [{ name := "aspirin", time := "morning", dosage := some "100mg" }]
    bodyStats := none, tests := [], notes := none }

/-- An environment in which the meal create rejects but every other create
would resolve. -/
def envMealFail : Env :=
  { ai := .output "RAW2" (some pdMealMed)
    mealW := fun _ => some "meal create rejected"
    medW := fun _ => none, statW := none, testW := fun _ => none }

/-- The concrete run in which the single meal write fails. -/
def runMealFail : RunResult :=
  parseJournalEntry envMealFail 7 "ate rice took aspirin" none 5 1 DB.empty

/-- The all-writes-succeed run over the meal-and-medicine structure. -/
def runMealMedOk : RunResult :=
  parseJournalEntry (mkEnvOk (.output "RAW2" (some pdMealMed))) 7
    "ate rice took aspirin" none 5 1 DB.empty

/-- A body-stats object with only the water intake populated. -/
def bsWaterOnly : BodyStatsData :=
  { waterIntakeLiters := some 2, weightKg := none, sleepHours := none,
    steps := none, mood := none, energy := none }

/-- A decoded structure with only a populated bodyStats object. -/
def pdStatOnly : ParsedData :=
  { meals := [], medicines := [], bodyStats := some bsWaterOnly
    tests := [], notes := none }

/-- An environment in which only the body-stat create rejects. -/
def envStatFail : Env :=
  { ai := .output "RAW4" (some pdStatOnly)
    mealW := fun _ => none, medW := fun _ => none
    statW := some "bodystat create rejected", testW := fun _ => none }

/-- The concrete run in which the body-stat write fails after a successful
decode. -/
def runStatFail : RunResult :=
  parseJournalEntry envStatFail 7 "drank water" none 5 1 DB.empty

/-- A body-stats object with every field absent. -/
def bsAllNone : BodyStatsData :=
  { waterIntakeLiters := none, weightKg := none, sleepHours := none,
    steps := none, mood := none, energy := none }

/-- A decoded structure whose bodyStats object is present but has no field. -/
def pdStatNoField : ParsedData :=
  { meals := [], medicines := [], bodyStats := some bsAllNone
    tests := [], notes := none }

/-- The run over the field-less bodyStats object. -/
def runStatNoField : RunResult :=
  parseJournalEntry (mkEnvOk (.output "RAW9" (some pdStatNoField))) 7 "slept well"
    none 5 1 DB.empty

/-- A body-stats object whose only present field is a zero weight. -/
def bsZeroWeight : BodyStatsData :=
  { waterIntakeLiters := none, weightKg := some 0, sleepHours := none,
    steps := none, mood := none, energy := none }

/-- A decoded structure whose bodyStats carries only weightKg = 0. -/
def pdStatZeroWeight : ParsedData :=
  { meals := [], medicines := [], bodyStats := some bsZeroWeight
    tests := [], notes := none }

/-- The run over the zero-weight bodyStats object. -/
def runStatZeroWeight : RunResult :=
  parseJournalEntry (mkEnvOk (.output "RAW9b" (some pdStatZeroWeight))) 7
    "weighed myself" none 5 1 DB.empty

/-- The all-writes-succeed run over the water-only bodyStats structure. -/
def runStatOnlyOk : RunResult :=
  parseJournalEntry (mkEnvOk (.output "RAW4" (some pdStatOnly))) 7 "drank water"
    none 5 1 DB.empty

/-- A failed journal entry awaiting retry. -/
def jFailed : JournalEntry :=
  { id := 1, userId := 7, date := 4, rawText := "ate rice"
    parsedData := none, isProcessed := false
    processingStatus := .failed
    processingError := some "AI API call failed", aiResponse := none }

/-- A database holding only the failed entry. -/
def dbFailed : DB := { journals := [jFailed], stores := DB.empty.stores }

/-- A retry of the failed entry in an environment where extraction, decode
and all writes succeed. -/
def runRetry : RunResult :=
  retryProcessing (mkEnvOk (.output "RAWR" (some pdEmpty))) 7 1 9 2 dbFailed

/-! ### Persistence lemmas -/

theorem updateJournal_stores (db : DB) (jid : Nat) (f : JournalEntry → JournalEntry) :
    (updateJournal db jid f).stores = db.stores := rfl

theorem insertJournal_stores (db : DB) (e : JournalEntry) :
    (insertJournal db e).stores = db.stores := rfl

theorem map_ifId_of_fresh (fid : Nat) (f : JournalEntry → JournalEntry) :
    ∀ (l : List JournalEntry), (∀ e ∈ l, e.id ≠ fid) →
      l.map (fun e => if e.id = fid then f e else e) = l
  | [], _ => rfl
  | e :: t, h => by
    have he : e.id ≠ fid := h e (List.mem_cons_self e t)
    simp only [List.map_cons, if_neg he, List.cons.injEq, true_and]
    exact map_ifId_of_fresh fid f t (fun x hx => h x (List.mem_cons_of_mem e hx))

theorem map_ifId_append (fid : Nat) (f : JournalEntry → JournalEntry)
    (l : List JournalEntry) (e0 : JournalEntry)
    (hfresh : ∀ e ∈ l, e.id ≠ fid) (he0 : e0.id = fid) :
    (l ++ [e0]).map (fun e => if e.id = fid then f e else e) = l ++ [f e0] := by
  rw [List.map_append, map_ifId_of_fresh fid f l hfresh]
  simp [he0]

theorem mkJournalEntry_id (uid fid now : Nat) (rawText : String) (dateArg : Option Nat) :
    (mkJournalEntry uid fid now rawText dateArg).id = fid := rfl

/-! ### Branch characterizations of parseJournalEntry -/

theorem parse_blank (env : Env) (uid : Nat) (rawText : String) (dateArg : Option Nat)
    (now fid : Nat) (db : DB) (h : jsTrim rawText = "") :
    parseJournalEntry env uid rawText dateArg now fid db =
      { db := db, resp := invalidTextResp, states := [] } := by
  unfold parseJournalEntry
  rw [if_pos h]

theorem parse_transport (env : Env) (uid : Nat) (rawText : String)
    (dateArg : Option Nat) (now fid : Nat) (db : DB) (msg : String)
    (h : jsTrim rawText ≠ "") (hai : env.ai = .transportError msg) :
    parseJournalEntry env uid rawText dateArg now fid db =
      (let db1 := insertJournal db (mkJournalEntry uid fid now rawText dateArg)
       let db2 := updateJournal db1 fid (failCatchUpdate msg)
       { db := db2, resp := aiFailResp fid, states := [db1, db2] }) := by
  unfold parseJournalEntry
  rw [if_neg h, hai]

theorem parse_decode_failed (env : Env) (uid : Nat) (rawText : String)
    (dateArg : Option Nat) (now fid : Nat) (db : DB) (raw : String)
    (h : jsTrim rawText ≠ "") (hai : env.ai = .output raw none) :
    parseJournalEntry env uid rawText dateArg now fid db =
      (let db1 := insertJournal db (mkJournalEntry uid fid now rawText dateArg)
       let db2 := updateJournal db1 fid (failDecodeUpdate raw)
       { db := db2, resp := decodeFailResp fid raw, states := [db1, db2] }) := by
  unfold parseJournalEntry
  rw [if_neg h, hai]

theorem parse_decoded_ok (env : Env) (uid : Nat) (rawText : String)
    (dateArg : Option Nat) (now fid : Nat) (db : DB) (raw : String) (pd : ParsedData)
    (h : jsTrim rawText ≠ "") (hai : env.ai = .output raw (some pd))
    (hfo : (fanOut env uid fid (dateArg.getD now) pd db.stores).2.2 = none) :
    parseJournalEntry env uid rawText dateArg now fid db =
      (let db1 := insertJournal db (mkJournalEntry uid fid now rawText dateArg)
       let db2 := updateJournal db1 fid (completeUpdate pd raw)
       let fo := fanOut env uid fid (dateArg.getD now) pd db.stores
       { db := { journals := db2.journals, stores := fo.1 }
         resp := successResp fid pd
         states := [db1, db2] ++
           fo.2.1.map (fun s => { journals := db2.journals, stores := s }) }) := by
  unfold parseJournalEntry
  rw [if_neg h, hai]
  simp only [updateJournal_stores, insertJournal_stores, hfo]

theorem parse_write_failed (env : Env) (uid : Nat) (rawText : String)
    (dateArg : Option Nat) (now fid : Nat) (db : DB) (raw : String) (pd : ParsedData)
    (msg : String)
    (h : jsTrim rawText ≠ "") (hai : env.ai = .output raw (some pd))
    (hfo : (fanOut env uid fid (dateArg.getD now) pd db.stores).2.2 = some msg) :
    parseJournalEntry env uid rawText dateArg now fid db =
      (let db1 := insertJournal db (mkJournalEntry uid fid now rawText dateArg)
       let db2 := updateJournal db1 fid (completeUpdate pd raw)
       let fo := fanOut env uid fid (dateArg.getD now) pd db.stores
       let db3 : DB := { journals := db2.journals, stores := fo.1 }
       let db4 := updateJournal db3 fid (failCatchUpdate msg)
       { db := db4, resp := aiFailResp fid
         states := ([db1, db2] ++
           fo.2.1.map (fun s => { journals := db2.journals, stores := s })) ++ [db4] }) := by
  unfold parseJournalEntry
  rw [if_neg h, hai]
  simp only [updateJournal_stores, insertJournal_stores, hfo]

/-! ### Fan-out lemmas -/

theorem createLoop_err_none_of_all {α : Type} (ok : Nat → Option String)
    (mk : α → Stores → Stores) (h : ∀ n, ok n = none) :
    ∀ (xs : List α) (k : Nat) (s : Stores), (createLoop ok mk k xs s).2.2 = none
  | [], _, _ => rfl
  | x :: rest, k, s => by
    simp only [createLoop, h k]
    exact createLoop_err_none_of_all ok mk h rest (k + 1) (mk x s)

theorem createLoop_meals_ok (ok : Nat → Option String) (uid jid date : Nat) :
    ∀ (ms : List MealData) (k : Nat) (s : Stores),
      (createLoop ok (putMeal uid jid date) k ms s).2.2 = none →
      (createLoop ok (putMeal uid jid date) k ms s).1 =
        { meals := s.meals ++ ms.map (fun m => mealPreSave (mkMealRecord uid jid date m))
          medicines := s.medicines, bodyStats := s.bodyStats, tests := s.tests }
  | [], k, s, _ => by simp [createLoop]
  | m :: rest, k, s, h => by
    cases hok : ok k with
    | some msg => simp [createLoop, hok] at h
    | none =>
      simp only [createLoop, hok] at h ⊢
      rw [createLoop_meals_ok ok uid jid date rest (k + 1) (putMeal uid jid date m s) h]
      simp [putMeal]

theorem createLoop_medicines_ok (ok : Nat → Option String) (uid jid date : Nat) :
    ∀ (ms : List MedicineData) (k : Nat) (s : Stores),
      (createLoop ok (putMedicine uid jid date) k ms s).2.2 = none →
      (createLoop ok (putMedicine uid jid date) k ms s).1 =
        { meals := s.meals, medicines := s.medicines ++ ms.map (mkMedicineRecord uid jid date)
          bodyStats := s.bodyStats, tests := s.tests }
  | [], k, s, _ => by simp [createLoop]
  | m :: rest, k, s, h => by
    cases hok : ok k with
    | some msg => simp [createLoop, hok] at h
    | none =>
      simp only [createLoop, hok] at h ⊢
      rw [createLoop_medicines_ok ok uid jid date rest (k + 1) (putMedicine uid jid date m s) h]
      simp [putMedicine]

theorem createLoop_tests_ok (ok : Nat → Option String) (uid jid date : Nat) :
    ∀ (ts : List TestData) (k : Nat) (s : Stores),
      (createLoop ok (putTest uid jid date) k ts s).2.2 = none →
      (createLoop ok (putTest uid jid date) k ts s).1 =
        { meals := s.meals, medicines := s.medicines, bodyStats := s.bodyStats
          tests := s.tests ++ ts.map (mkTestRecord uid jid date) }
  | [], k, s, _ => by simp [createLoop]
  | t :: rest, k, s, h => by
    cases hok : ok k with
    | some msg => simp [createLoop, hok] at h
    | none =>
      simp only [createLoop, hok] at h ⊢
      rw [createLoop_tests_ok ok uid jid date rest (k + 1) (putTest uid jid date t s) h]
      simp [putTest]

theorem fanOut_ok_stores (env : Env) (uid jid date : Nat) (pd : ParsedData) (s : Stores)
    (h : (fanOut env uid jid date pd s).2.2 = none) :
    (fanOut env uid jid date pd s).1 =
      { meals := s.meals ++ pd.meals.map (fun m => mealPreSave (mkMealRecord uid jid date m))
        medicines := s.medicines ++ pd.medicines.map (mkMedicineRecord uid jid date)
        bodyStats := s.bodyStats ++ (pd.bodyStats.map (mkBodyStatRecord uid jid date)).toList
        tests := s.tests ++ pd.tests.map (mkTestRecord uid jid date) } := by
  cases h1 : (createLoop env.mealW (putMeal uid jid date) 0 pd.meals s).2.2 with
  | some msg => simp [fanOut, h1] at h
  | none =>
    have e1 := createLoop_meals_ok env.mealW uid jid date pd.meals 0 s h1
    cases h2 : (createLoop env.medW (putMedicine uid jid date) 0 pd.medicines
        (createLoop env.mealW (putMeal uid jid date) 0 pd.meals s).1).2.2 with
    | some msg => simp [fanOut, h1, h2] at h
    | none =>
      have e2 := createLoop_medicines_ok env.medW uid jid date pd.medicines 0
        (createLoop env.mealW (putMeal uid jid date) 0 pd.meals s).1 h2
      cases hbs : pd.bodyStats with
      | none =>
        cases h4 : (createLoop env.testW (putTest uid jid date) 0 pd.tests
            (createLoop env.medW (putMedicine uid jid date) 0 pd.medicines
              (createLoop env.mealW (putMeal uid jid date) 0 pd.meals s).1).1).2.2 with
        | some msg => simp [fanOut, h1, h2, hbs, h4] at h
        | none =>
          have e4 := createLoop_tests_ok env.testW uid jid date pd.tests 0 _ h4
          simp only [fanOut, h1, h2, hbs, h4]
          rw [e4, e2, e1]
          simp
      | some bs =>
        cases hsw : env.statW with
        | some msg => simp [fanOut, h1, h2, hbs, hsw] at h
        | none =>
          cases h4 : (createLoop env.testW (putTest uid jid date) 0 pd.tests
              (putBodyStat uid jid date bs
                (createLoop env.medW (putMedicine uid jid date) 0 pd.medicines
                  (createLoop env.mealW (putMeal uid jid date) 0 pd.meals s).1).1)).2.2 with
          | some msg => simp [fanOut, h1, h2, hbs, hsw, h4] at h
          | none =>
            have e4 := createLoop_tests_ok env.testW uid jid date pd.tests 0 _ h4
            simp only [fanOut, h1, h2, hbs, hsw, h4]
            rw [e4]
            simp only [putBodyStat, e2]
            simp only [e1]
            simp

/-! ### Retry branch characterizations -/

theorem retry_not_found (env : Env) (uid jid now fid : Nat) (db : DB)
    (h : findJournal db jid uid = none) :
    retryProcessing env uid jid now fid db =
      { db := db, resp := notFoundResp, states := [] } := by
  unfold retryProcessing
  rw [h]

theorem retry_invalid_state (env : Env) (uid jid now fid : Nat) (db : DB)
    (j : JournalEntry) (hj : findJournal db jid uid = some j)
    (hst : j.processingStatus ≠ PStatus.failed) :
    retryProcessing env uid jid now fid db =
      { db := db, resp := invalidStateResp, states := [] } := by
  unfold retryProcessing
  rw [hj]
  simp only [ne_eq, hst, not_false_eq_true, if_pos]

theorem retry_failed_run (env : Env) (uid jid now fid : Nat) (db : DB)
    (j : JournalEntry) (hj : findJournal db jid uid = some j)
    (hst : j.processingStatus = PStatus.failed) :
    retryProcessing env uid jid now fid db =
      (let db1 := updateJournal db jid retryResetUpdate
       let r := parseJournalEntry env uid j.rawText (some j.date) now fid db1
       { db := r.db, resp := r.resp, states := db1 :: r.states }) := by
  unfold retryProcessing
  rw [hj]
  simp only [ne_eq, hst, not_true_eq_false, if_neg, not_false_eq_true]

/-! ### Membership helpers -/

theorem mem_append_singleton {e e0 : JournalEntry} {l : List JournalEntry}
    (h : e ∈ l ++ [e0]) : e ∈ l ∨ e = e0 := by
  simpa using h

theorem eq_last_of_id {fid : Nat} {e e0 : JournalEntry} {l : List JournalEntry}
    (hfr : ∀ x ∈ l, x.id ≠ fid) (h : e ∈ l ++ [e0]) (hid : e.id = fid) : e = e0 := by
  rcases mem_append_singleton h with hmem | heq
  · exact absurd hid (hfr e hmem)
  · exact heq

theorem updateJournal_journals (db : DB) (jid : Nat) (f : JournalEntry → JournalEntry) :
    (updateJournal db jid f).journals =
      db.journals.map (fun e => if e.id = jid then f e else e) := rfl

/-- The journal list after the update that targets the freshly created
entry: every pre-existing entry is untouched and the new entry is updated. -/
theorem update_insert_journals (db : DB) (fid : Nat) (f : JournalEntry → JournalEntry)
    (e0 : JournalEntry) (hfresh : ∀ e ∈ db.journals, e.id ≠ fid) (he0 : e0.id = fid) :
    (updateJournal (insertJournal db e0) fid f).journals = db.journals ++ [f e0] := by
  rw [updateJournal_journals]
  exact map_ifId_append fid f db.journals e0 hfresh he0

/-! ### Concrete fixtures used by witnesses and counterexamples -/

/-! ### C5 — submitting valid text creates exactly one persistent entry -/

/-- C5: for every valid (non-blank, at most 5000 characters) rawText, a
parse request appends exactly one JournalEntry to the journal collection,
its rawText is the trimmed input and its id the fresh id, the entry is still
present in the final database whatever the downstream outcome, and the
response, success or failure alike, carries the id of that entry. -/
theorem submit_creates_single_persistent_entry
    (env : Env) (uid : Nat) (rawText : String) (dateArg : Option Nat)
    (now fid : Nat) (db : DB)
    (hvalid : jsTrim rawText ≠ "") (hlen : rawText.length ≤ 5000)
    (hfresh : ∀ e ∈ db.journals, e.id ≠ fid) :
    ∃ e : JournalEntry,
      (parseJournalEntry env uid rawText dateArg now fid db).db.journals
          = db.journals ++ [e]
      ∧ e.id = fid ∧ e.userId = uid ∧ e.rawText = jsTrim rawText
      ∧ (parseJournalEntry env uid rawText dateArg now fid db).resp.journalId
          = some fid := by
  cases hai : env.ai with
  | transportError msg =>
    rw [parse_transport env uid rawText dateArg now fid db msg hvalid hai]
    exact ⟨failCatchUpdate msg (mkJournalEntry uid fid now rawText dateArg),
      update_insert_journals db fid _ _ hfresh rfl, rfl, rfl, rfl, rfl⟩
  | output raw odec =>
    cases odec with
    | none =>
      rw [parse_decode_failed env uid rawText dateArg now fid db raw hvalid hai]
      exact ⟨failDecodeUpdate raw (mkJournalEntry uid fid now rawText dateArg),
        update_insert_journals db fid _ _ hfresh rfl, rfl, rfl, rfl, rfl⟩
    | some pd =>
      cases hfo : (fanOut env uid fid (dateArg.getD now) pd db.stores).2.2 with
      | none =>
        rw [parse_decoded_ok env uid rawText dateArg now fid db raw pd hvalid hai hfo]
        exact ⟨completeUpdate pd raw (mkJournalEntry uid fid now rawText dateArg),
          update_insert_journals db fid _ _ hfresh rfl, rfl, rfl, rfl, rfl⟩
      | some msg =>
        rw [parse_write_failed env uid rawText dateArg now fid db raw pd msg hvalid hai hfo]
        refine ⟨failCatchUpdate msg (completeUpdate pd raw
          (mkJournalEntry uid fid now rawText dateArg)), ?_, rfl, rfl, rfl, rfl⟩
        simp only [update_insert_journals db fid
          (completeUpdate pd raw) (mkJournalEntry uid fid now rawText dateArg) hfresh rfl]
        simp only [updateJournal_journals]
        exact map_ifId_append fid (failCatchUpdate msg) db.journals
          (completeUpdate pd raw (mkJournalEntry uid fid now rawText dateArg)) hfresh rfl

/-- Closed instance of C5 at a concrete run. -/
theorem submit_creates_single_persistent_entry_witness :
    jsTrim " ate rice " ≠ "" ∧ (" ate rice ").length ≤ 5000 ∧
    ∃ e : JournalEntry,
      (parseJournalEntry (mkEnvOk (.output "RAW" (some pdEmpty))) 7 " ate rice "
        none 3 1 DB.empty).db.journals = DB.empty.journals ++ [e]
      ∧ e.id = 1 ∧ e.userId = 7 ∧ e.rawText = jsTrim " ate rice "
      ∧ (parseJournalEntry (mkEnvOk (.output "RAW" (some pdEmpty))) 7 " ate rice "
          none 3 1 DB.empty).resp.journalId = some 1 :=
  ⟨by decide, by decide,
    submit_creates_single_persistent_entry (mkEnvOk (.output "RAW" (some pdEmpty)))
      7 " ate rice " none 3 1 DB.empty (by decide) (by decide) (by decide)⟩

/-! ### C6 — decode failure: failed entry, raw text kept, zero records -/

/-- C6: when the model output does not decode (JSON.parse throws), the entry
ends in status `failed`, its processingError is set to a non-empty message,
its aiResponse retains the offending raw text, and no derived record of any
category is created by the operation. -/
theorem decode_failure_fails_entry_no_records
    (env : Env) (uid : Nat) (rawText : String) (dateArg : Option Nat)
    (now fid : Nat) (db : DB) (raw : String)
    (hvalid : jsTrim rawText ≠ "") (hai : env.ai = .output raw none)
    (hfresh : ∀ e ∈ db.journals, e.id ≠ fid) :
    ∃ e : JournalEntry,
      (parseJournalEntry env uid rawText dateArg now fid db).db.journals
          = db.journals ++ [e]
      ∧ e.processingStatus = PStatus.failed
      ∧ e.processingError = some "Failed to parse AI response as JSON"
      ∧ e.processingError.getD "" ≠ ""
      ∧ e.aiResponse = some raw
      ∧ (parseJournalEntry env uid rawText dateArg now fid db).db.stores
          = db.stores := by
  rw [parse_decode_failed env uid rawText dateArg now fid db raw hvalid hai]
  exact ⟨failDecodeUpdate raw (mkJournalEntry uid fid now rawText dateArg),
    update_insert_journals db fid _ _ hfresh rfl, rfl, rfl,
    by simp [failDecodeUpdate], rfl, rfl⟩

/-- Closed instance of C6 at a concrete run. -/
theorem decode_failure_fails_entry_no_records_witness :
    jsTrim "ate rice" ≠ "" ∧
    ∃ e : JournalEntry,
      (parseJournalEntry (mkEnvOk (.output "not json" none)) 7 "ate rice"
        none 3 1 DB.empty).db.journals = DB.empty.journals ++ [e]
      ∧ e.processingStatus = PStatus.failed
      ∧ e.processingError = some "Failed to parse AI response as JSON"
      ∧ e.processingError.getD "" ≠ ""
      ∧ e.aiResponse = some "not json"
      ∧ (parseJournalEntry (mkEnvOk (.output "not json" none)) 7 "ate rice"
          none 3 1 DB.empty).db.stores = DB.empty.stores :=
  ⟨by decide,
    decode_failure_fails_entry_no_records (mkEnvOk (.output "not json" none))
      7 "ate rice" none 3 1 DB.empty "not json" (by decide) rfl (by decide)⟩

/-! ### C7 — retry rejections leave the database untouched -/

/-- C7: a retry request for an id that does not exist for the requesting
user is rejected with 404, and a retry request for an entry whose status is
not exactly `failed` is rejected with 400; in both cases the database is
returned completely unchanged and no pipeline step runs (the trace of
persistence snapshots is empty). -/
theorem retry_rejections_unchanged (env : Env) (uid jid now fid : Nat) (db : DB) :
    (findJournal db jid uid = none →
      retryProcessing env uid jid now fid db =
        { db := db, resp := notFoundResp, states := [] })
    ∧ (∀ j, findJournal db jid uid = some j → j.processingStatus ≠ PStatus.failed →
      retryProcessing env uid jid now fid db =
        { db := db, resp := invalidStateResp, states := [] }) :=
  ⟨fun h => retry_not_found env uid jid now fid db h,
   fun j hj hst => retry_invalid_state env uid jid now fid db j hj hst⟩

/-- Closed instance of C7: 404 for a missing id, 400 for a completed
entry, database unchanged in both cases. -/
theorem retry_rejections_unchanged_witness :
    retryProcessing (mkEnvOk (.output "RAW" (some pdEmpty))) 7 1 3 2 DB.empty =
      { db := DB.empty, resp := notFoundResp, states := [] }
    ∧ retryProcessing (mkEnvOk (.output "RAW" (some pdEmpty))) 7 1 3 2 dbCompleted =
      { db := dbCompleted, resp := invalidStateResp, states := [] } :=
  ⟨(retry_rejections_unchanged (mkEnvOk (.output "RAW" (some pdEmpty)))
      7 1 3 2 DB.empty).1 (by decide),
   (retry_rejections_unchanged (mkEnvOk (.output "RAW" (some pdEmpty)))
      7 1 3 2 dbCompleted).2 jCompleted (by decide) (by decide)⟩

/-! ### C3 — ordering of the completed flip and the fan-out writes -/

/-- C3 counterexample: in this concrete run the snapshot taken right after
the second persistence step already shows the entry in status `completed`
while the meal store is still empty, and the meal is only written
afterwards — so a fan-out write completes after the `processing → completed`
transition is applied, contradicting the claimed ordering. -/
theorem completed_observable_before_fanout_cx :
    (runOneMeal.states.get? 1).map
        (fun d => (d.journals.map JournalEntry.processingStatus, d.stores.meals.length))
      = some ([PStatus.completed], 0)
    ∧ runOneMeal.db.stores.meals.length = 1
    ∧ runOneMeal.db.journals.map JournalEntry.processingStatus = [PStatus.completed] := by
  decide

theorem mem_two_cons_append {α : Type} {d a b : α} {l : List α}
    (h : d ∈ [a, b] ++ l) : d = a ∨ d = b ∨ d ∈ l := by
  simp only [List.cons_append, List.nil_append, List.mem_cons] at h
  exact h

theorem mem_two_cons_append_last {α : Type} {d a b c : α} {l : List α}
    (h : d ∈ ([a, b] ++ l) ++ [c]) : d = a ∨ d = b ∨ d ∈ l ∨ d = c := by
  rcases List.mem_append.mp h with h1 | h1
  · rcases mem_two_cons_append h1 with h2 | h2 | h2
    · exact Or.inl h2
    · exact Or.inr (Or.inl h2)
    · exact Or.inr (Or.inr (Or.inl h2))
  · exact Or.inr (Or.inr (Or.inr (List.mem_singleton.mp h1)))

/-- C3 as amended: the `processing → completed` transition (with parsedData,
isProcessed and aiResponse persisted atomically in the same update) is
applied before any fan-out write — right after it the derived stores are
still untouched — and in every observable state of the operation an entry in
status `completed` has parsedData and aiResponse populated. -/
theorem completed_flip_before_fanout
    (env : Env) (uid : Nat) (rawText : String) (dateArg : Option Nat)
    (now fid : Nat) (db : DB) (raw : String) (pd : ParsedData)
    (hvalid : jsTrim rawText ≠ "") (hai : env.ai = .output raw (some pd))
    (hfresh : ∀ e ∈ db.journals, e.id ≠ fid) :
    (∃ d, (parseJournalEntry env uid rawText dateArg now fid db).states.get? 1 = some d
       ∧ d.stores = db.stores
       ∧ ∀ e ∈ d.journals, e.id = fid →
           e.processingStatus = PStatus.completed ∧ e.parsedData = some pd
             ∧ e.aiResponse = some raw ∧ e.isProcessed = true)
    ∧ ∀ d ∈ (parseJournalEntry env uid rawText dateArg now fid db).states,
        ∀ e ∈ d.journals, e.id = fid → e.processingStatus = PStatus.completed →
          e.parsedData = some pd ∧ e.aiResponse = some raw ∧ e.isProcessed = true := by
  have hj2 : (updateJournal (insertJournal db (mkJournalEntry uid fid now rawText dateArg))
      fid (completeUpdate pd raw)).journals
      = db.journals ++ [completeUpdate pd raw (mkJournalEntry uid fid now rawText dateArg)] :=
    update_insert_journals db fid _ _ hfresh rfl
  cases hfo : (fanOut env uid fid (dateArg.getD now) pd db.stores).2.2 with
  | none =>
    rw [parse_decoded_ok env uid rawText dateArg now fid db raw pd hvalid hai hfo]
    constructor
    · refine ⟨_, rfl, rfl, ?_⟩
      intro e he hid
      rw [hj2] at he
      rw [eq_last_of_id hfresh he hid]
      exact ⟨rfl, rfl, rfl, rfl⟩
    · intro d hd
      rcases mem_two_cons_append hd with rfl | rfl | hd
      · intro e he hid hcompleted
        rw [insertJournal, List.mem_append] at he
        rcases he with he | he
        · exact absurd hid (hfresh e he)
        · rw [List.mem_singleton] at he
          rw [he] at hcompleted
          simp [mkJournalEntry] at hcompleted
      · intro e he hid _
        rw [hj2] at he
        rw [eq_last_of_id hfresh he hid]
        exact ⟨rfl, rfl, rfl⟩
      · obtain ⟨st, hst, hdeq⟩ := List.mem_map.mp hd
        subst hdeq
        intro e he hid _
        rw [show ({ journals := (updateJournal (insertJournal db
              (mkJournalEntry uid fid now rawText dateArg)) fid
              (completeUpdate pd raw)).journals, stores := st } : DB).journals
            = _ from rfl, hj2] at he
        rw [eq_last_of_id hfresh he hid]
        exact ⟨rfl, rfl, rfl⟩
  | some msg =>
    rw [parse_write_failed env uid rawText dateArg now fid db raw pd msg hvalid hai hfo]
    constructor
    · refine ⟨_, rfl, rfl, ?_⟩
      intro e he hid
      rw [hj2] at he
      rw [eq_last_of_id hfresh he hid]
      exact ⟨rfl, rfl, rfl, rfl⟩
    · intro d hd
      rcases mem_two_cons_append_last hd with rfl | rfl | hd | rfl
      · intro e he hid hcompleted
        rw [insertJournal, List.mem_append] at he
        rcases he with he | he
        · exact absurd hid (hfresh e he)
        · rw [List.mem_singleton] at he
          rw [he] at hcompleted
          simp [mkJournalEntry] at hcompleted
      · intro e he hid _
        rw [hj2] at he
        rw [eq_last_of_id hfresh he hid]
        exact ⟨rfl, rfl, rfl⟩
      · obtain ⟨st, hst, hdeq⟩ := List.mem_map.mp hd
        subst hdeq
        intro e he hid _
        rw [show ({ journals := (updateJournal (insertJournal db
              (mkJournalEntry uid fid now rawText dateArg)) fid
              (completeUpdate pd raw)).journals, stores := st } : DB).journals
            = _ from rfl, hj2] at he
        rw [eq_last_of_id hfresh he hid]
        exact ⟨rfl, rfl, rfl⟩
      · intro e he hid hcompleted
        rw [updateJournal_journals] at he
        simp only at he
        rw [hj2] at he
        rw [map_ifId_append fid (failCatchUpdate msg) db.journals _ hfresh rfl] at he
        rw [eq_last_of_id hfresh he hid] at hcompleted
        simp [failCatchUpdate] at hcompleted

/-- Closed instance of the amended C3 at a concrete run. -/
theorem completed_flip_before_fanout_witness :
    (∃ d, (parseJournalEntry (mkEnvOk (.output "RAW3" (some pdOneMeal))) 7 "ate rice"
        none 5 1 DB.empty).states.get? 1 = some d
       ∧ d.stores = DB.empty.stores
       ∧ ∀ e ∈ d.journals, e.id = 1 →
           e.processingStatus = PStatus.completed ∧ e.parsedData = some pdOneMeal
             ∧ e.aiResponse = some "RAW3" ∧ e.isProcessed = true)
    ∧ ∀ d ∈ (parseJournalEntry (mkEnvOk (.output "RAW3" (some pdOneMeal))) 7 "ate rice"
        none 5 1 DB.empty).states,
        ∀ e ∈ d.journals, e.id = 1 → e.processingStatus = PStatus.completed →
          e.parsedData = some pdOneMeal ∧ e.aiResponse = some "RAW3"
            ∧ e.isProcessed = true :=
  completed_flip_before_fanout (mkEnvOk (.output "RAW3" (some pdOneMeal))) 7 "ate rice"
    none 5 1 DB.empty "RAW3" pdOneMeal (by decide) rfl (by decide)

/-! ### C2 — dependence of the four fan-out categories -/

/-- C2 counterexample: the decoded structure contains one meal and one
medicine and only the meal write fails, yet no medicine record is created
(the failure of one category blocks the remaining categories), the entry is
re-marked `failed` rather than `completed`, and no per-category counts are
returned at all. -/
theorem fanout_not_independent_cx :
    runMealFail.db.stores.meals.length = 0
    ∧ runMealFail.db.stores.medicines.length = 0
    ∧ runMealFail.db.journals.map JournalEntry.processingStatus = [PStatus.failed]
    ∧ runMealFail.resp.success = false
    ∧ runMealFail.resp.createdItems = none := by
  decide

theorem failCatchUpdate_error_nonempty (msg : String) (e : JournalEntry) :
    (failCatchUpdate msg e).processingError.getD "" ≠ "" := by
  simp only [failCatchUpdate, Option.getD_some]
  unfold jsMsgOr
  split
  · decide
  · assumption

/-- The journal list after the failure update that follows the completed
update on the freshly created entry. -/
theorem wfail_journals (db : DB) (uid fid now : Nat) (rawText : String)
    (dateArg : Option Nat) (pd : ParsedData) (raw msg : String) (st : Stores)
    (hfresh : ∀ e ∈ db.journals, e.id ≠ fid) :
    (updateJournal { journals := (updateJournal (insertJournal db
        (mkJournalEntry uid fid now rawText dateArg)) fid
        (completeUpdate pd raw)).journals, stores := st }
      fid (failCatchUpdate msg)).journals
    = db.journals ++ [failCatchUpdate msg (completeUpdate pd raw
        (mkJournalEntry uid fid now rawText dateArg))] := by
  rw [updateJournal_journals]
  simp only
  rw [update_insert_journals db fid (completeUpdate pd raw)
    (mkJournalEntry uid fid now rawText dateArg) hfresh rfl]
  exact map_ifId_append fid (failCatchUpdate msg) db.journals _ hfresh rfl

theorem optionMapToList_length {α β : Type} (o : Option α) (f : α → β) :
    ((o.map f).toList).length = if o.isSome then 1 else 0 := by
  cases o <;> simp

/-- C2 as amended: the four categories are written sequentially inside one
guarded block. If any derived-record create rejects, the remaining writes of
all categories are abandoned, the entry is re-marked `failed` with a
non-empty processingError, and no per-category counts are returned. Counts
are returned exactly when every write succeeded, and then each count equals
the number of records actually created in that category by the operation. -/
theorem fanout_abort_and_reported_counts
    (env : Env) (uid : Nat) (rawText : String) (dateArg : Option Nat)
    (now fid : Nat) (db : DB) (raw : String) (pd : ParsedData)
    (hvalid : jsTrim rawText ≠ "") (hai : env.ai = .output raw (some pd))
    (hfresh : ∀ e ∈ db.journals, e.id ≠ fid) :
    (∀ msg, (fanOut env uid fid (dateArg.getD now) pd db.stores).2.2 = some msg →
      (parseJournalEntry env uid rawText dateArg now fid db).resp.createdItems = none
      ∧ (parseJournalEntry env uid rawText dateArg now fid db).resp.success = false
      ∧ ∃ e, (parseJournalEntry env uid rawText dateArg now fid db).db.journals
            = db.journals ++ [e]
          ∧ e.processingStatus = PStatus.failed ∧ e.processingError.getD "" ≠ "")
    ∧ (∀ c, (parseJournalEntry env uid rawText dateArg now fid db).resp.createdItems
          = some c →
      (parseJournalEntry env uid rawText dateArg now fid db).db.stores.meals.length
          = db.stores.meals.length + c.meals
      ∧ (parseJournalEntry env uid rawText dateArg now fid db).db.stores.medicines.length
          = db.stores.medicines.length + c.medicines
      ∧ (parseJournalEntry env uid rawText dateArg now fid db).db.stores.bodyStats.length
          = db.stores.bodyStats.length + c.bodyStats
      ∧ (parseJournalEntry env uid rawText dateArg now fid db).db.stores.tests.length
          = db.stores.tests.length + c.tests
      ∧ ∃ e, (parseJournalEntry env uid rawText dateArg now fid db).db.journals
            = db.journals ++ [e] ∧ e.processingStatus = PStatus.completed) := by
  constructor
  · intro msg hmsg
    rw [parse_write_failed env uid rawText dateArg now fid db raw pd msg hvalid hai hmsg]
    refine ⟨rfl, rfl, failCatchUpdate msg (completeUpdate pd raw
      (mkJournalEntry uid fid now rawText dateArg)), ?_, rfl,
      failCatchUpdate_error_nonempty msg _⟩
    exact wfail_journals db uid fid now rawText dateArg pd raw msg _ hfresh
  · intro c hc
    cases hfo : (fanOut env uid fid (dateArg.getD now) pd db.stores).2.2 with
    | some msg =>
      rw [parse_write_failed env uid rawText dateArg now fid db raw pd msg hvalid hai hfo] at hc
      simp [aiFailResp] at hc
    | none =>
      rw [parse_decoded_ok env uid rawText dateArg now fid db raw pd hvalid hai hfo] at hc ⊢
      have hcc : mkCounts pd = c := by
        simpa [successResp] using hc
      subst hcc
      have hst := fanOut_ok_stores env uid fid (dateArg.getD now) pd db.stores hfo
      refine ⟨?_, ?_, ?_, ?_, completeUpdate pd raw (mkJournalEntry uid fid now rawText dateArg),
        update_insert_journals db fid _ _ hfresh rfl, rfl⟩
      · rw [show (fanOut env uid fid (dateArg.getD now) pd db.stores).1.meals.length =
            _ from congrArg (fun s => s.meals.length) hst]
        simp [mkCounts]
      · rw [show (fanOut env uid fid (dateArg.getD now) pd db.stores).1.medicines.length =
            _ from congrArg (fun s => s.medicines.length) hst]
        simp [mkCounts]
      · rw [show (fanOut env uid fid (dateArg.getD now) pd db.stores).1.bodyStats.length =
            _ from congrArg (fun s => s.bodyStats.length) hst]
        simp [mkCounts, optionMapToList_length]
      · rw [show (fanOut env uid fid (dateArg.getD now) pd db.stores).1.tests.length =
            _ from congrArg (fun s => s.tests.length) hst]
        simp [mkCounts]

/-- Closed instance of the amended C2: the aborting run and the fully
successful run, with every hypothesis discharged concretely. -/
theorem fanout_abort_and_reported_counts_witness :
    (runMealFail.resp.createdItems = none
      ∧ runMealFail.resp.success = false
      ∧ ∃ e, runMealFail.db.journals = DB.empty.journals ++ [e]
          ∧ e.processingStatus = PStatus.failed ∧ e.processingError.getD "" ≠ "")
    ∧ (runMealMedOk.db.stores.meals.length
          = DB.empty.stores.meals.length + (mkCounts pdMealMed).meals
      ∧ runMealMedOk.db.stores.medicines.length
          = DB.empty.stores.medicines.length + (mkCounts pdMealMed).medicines
      ∧ runMealMedOk.db.stores.bodyStats.length
          = DB.empty.stores.bodyStats.length + (mkCounts pdMealMed).bodyStats
      ∧ runMealMedOk.db.stores.tests.length
          = DB.empty.stores.tests.length + (mkCounts pdMealMed).tests
      ∧ ∃ e, runMealMedOk.db.journals = DB.empty.journals ++ [e]
          ∧ e.processingStatus = PStatus.completed) :=
  ⟨(fanout_abort_and_reported_counts envMealFail 7 "ate rice took aspirin" none 5 1
      DB.empty "RAW2" pdMealMed (by decide) rfl (by decide)).1
      "meal create rejected" (by decide),
   (fanout_abort_and_reported_counts (mkEnvOk (.output "RAW2" (some pdMealMed))) 7
      "ate rice took aspirin" none 5 1 DB.empty "RAW2" pdMealMed
      (by decide) rfl (by decide)).2 (mkCounts pdMealMed) (by decide)⟩

/-! ### C4 — success path: completed entry and tagged derived records -/

/-- C4 counterexample: the extraction output decodes successfully, yet the
entry ends in status `failed` with a set processingError (the body-stat
create rejected), so a successful decode alone does not guarantee a
`completed` entry. -/
theorem decoded_but_failed_entry_cx :
    envStatFail.ai = AiResult.output "RAW4" (some pdStatOnly)
    ∧ runStatFail.db.journals.map JournalEntry.processingStatus = [PStatus.failed]
    ∧ runStatFail.db.journals.map (fun e => e.processingError.getD "")
        = ["bodystat create rejected"]
    ∧ runStatFail.resp.success = false := by
  decide

theorem mealPreSave_isFromJournal (m : MealRecord) :
    (mealPreSave m).isFromJournal = m.isFromJournal := by
  unfold mealPreSave; split <;> rfl

theorem mealPreSave_journalEntryId (m : MealRecord) :
    (mealPreSave m).journalEntryId = m.journalEntryId := by
  unfold mealPreSave; split <;> rfl

theorem mealPreSave_foodItems (m : MealRecord) :
    (mealPreSave m).foodItems = m.foodItems := by
  unfold mealPreSave; split <;> rfl

theorem fanOut_err_none_of_all (env : Env) (uid jid date : Nat) (pd : ParsedData)
    (s : Stores)
    (h1 : ∀ n, env.mealW n = none) (h2 : ∀ n, env.medW n = none)
    (h3 : env.statW = none) (h4 : ∀ n, env.testW n = none) :
    (fanOut env uid jid date pd s).2.2 = none := by
  have cm := createLoop_err_none_of_all env.mealW (putMeal uid jid date) h1
  have cd := createLoop_err_none_of_all env.medW (putMedicine uid jid date) h2
  have ct := createLoop_err_none_of_all env.testW (putTest uid jid date) h4
  cases hbs : pd.bodyStats <;> simp [fanOut, cm, cd, ct, hbs, h3]

/-- C4 as amended: when the extraction output decodes to the structured
schema and every derived-record create succeeds, the entry ends `completed`
with processingError unset and parsedData populated, exactly one Meal record
is created per decoded meal, every newly created derived record of each
category carries isFromJournal = true and journalEntryId equal to the
id of the entry, and within each created Meal record all food items share one
quantity string and one calorie value. -/
theorem decoded_success_creates_tagged_records
    (env : Env) (uid : Nat) (rawText : String) (dateArg : Option Nat)
    (now fid : Nat) (db : DB) (raw : String) (pd : ParsedData)
    (hvalid : jsTrim rawText ≠ "") (hai : env.ai = .output raw (some pd))
    (hfresh : ∀ e ∈ db.journals, e.id ≠ fid)
    (h1 : ∀ n, env.mealW n = none) (h2 : ∀ n, env.medW n = none)
    (h3 : env.statW = none) (h4 : ∀ n, env.testW n = none) :
    (∃ e, (parseJournalEntry env uid rawText dateArg now fid db).db.journals
          = db.journals ++ [e]
        ∧ e.processingStatus = PStatus.completed ∧ e.processingError = none
        ∧ e.parsedData = some pd)
    ∧ (∃ newMeals,
        (parseJournalEntry env uid rawText dateArg now fid db).db.stores.meals
            = db.stores.meals ++ newMeals
        ∧ newMeals.length = pd.meals.length
        ∧ ∀ rec ∈ newMeals, rec.isFromJournal = true ∧ rec.journalEntryId = fid
            ∧ ∀ i1 ∈ rec.foodItems, ∀ i2 ∈ rec.foodItems,
                i1.quantity = i2.quantity ∧ i1.calories = i2.calories)
    ∧ (∃ newMeds,
        (parseJournalEntry env uid rawText dateArg now fid db).db.stores.medicines
            = db.stores.medicines ++ newMeds
        ∧ ∀ rec ∈ newMeds, rec.isFromJournal = true ∧ rec.journalEntryId = fid)
    ∧ (∃ newStats,
        (parseJournalEntry env uid rawText dateArg now fid db).db.stores.bodyStats
            = db.stores.bodyStats ++ newStats
        ∧ ∀ rec ∈ newStats, rec.isFromJournal = true ∧ rec.journalEntryId = fid)
    ∧ (∃ newTests,
        (parseJournalEntry env uid rawText dateArg now fid db).db.stores.tests
            = db.stores.tests ++ newTests
        ∧ ∀ rec ∈ newTests, rec.isFromJournal = true ∧ rec.journalEntryId = fid) := by
  have hfo := fanOut_err_none_of_all env uid fid (dateArg.getD now) pd db.stores h1 h2 h3 h4
  have hst := fanOut_ok_stores env uid fid (dateArg.getD now) pd db.stores hfo
  rw [parse_decoded_ok env uid rawText dateArg now fid db raw pd hvalid hai hfo]
  refine ⟨⟨completeUpdate pd raw (mkJournalEntry uid fid now rawText dateArg),
    update_insert_journals db fid _ _ hfresh rfl, rfl, rfl, rfl⟩, ?_, ?_, ?_, ?_⟩
  · refine ⟨pd.meals.map (fun m => mealPreSave (mkMealRecord uid fid (dateArg.getD now) m)),
      congrArg Stores.meals hst, by simp, ?_⟩
    intro rec hrec
    obtain ⟨m, _, hrec⟩ := List.mem_map.mp hrec
    subst hrec
    refine ⟨by rw [mealPreSave_isFromJournal]; rfl,
      by rw [mealPreSave_journalEntryId]; rfl, ?_⟩
    intro i1 hi1 i2 hi2
    rw [mealPreSave_foodItems] at hi1 hi2
    obtain ⟨a, _, hi1⟩ := List.mem_map.mp hi1
    obtain ⟨b, _, hi2⟩ := List.mem_map.mp hi2
    subst hi1; subst hi2
    exact ⟨rfl, rfl⟩
  · refine ⟨pd.medicines.map (mkMedicineRecord uid fid (dateArg.getD now)),
      congrArg Stores.medicines hst, ?_⟩
    intro rec hrec
    obtain ⟨m, _, hrec⟩ := List.mem_map.mp hrec
    subst hrec
    exact ⟨rfl, rfl⟩
  · refine ⟨(pd.bodyStats.map (mkBodyStatRecord uid fid (dateArg.getD now))).toList,
      congrArg Stores.bodyStats hst, ?_⟩
    intro rec hrec
    cases hbs : pd.bodyStats with
    | none =>
      rw [hbs] at hrec
      exact absurd hrec (List.not_mem_nil rec)
    | some bs =>
      rw [hbs] at hrec
      have hrec2 : rec ∈ [mkBodyStatRecord uid fid (dateArg.getD now) bs] := hrec
      rw [List.mem_singleton.mp hrec2]
      exact ⟨rfl, rfl⟩
  · refine ⟨pd.tests.map (mkTestRecord uid fid (dateArg.getD now)),
      congrArg Stores.tests hst, ?_⟩
    intro rec hrec
    obtain ⟨t, _, hrec⟩ := List.mem_map.mp hrec
    subst hrec
    exact ⟨rfl, rfl⟩

theorem truthy_ite_num (o : Option Int) (w : Int) :
    (if truthyNum o then o else none) = some w ↔ o = some w ∧ w ≠ 0 := by
  cases o with
  | none =>
    rw [if_neg (by decide)]
    simp
  | some v =>
    by_cases hv : v = 0
    · subst hv
      rw [if_neg (by decide)]
      constructor
      · intro h
        exact absurd h (by simp)
      · intro h
        exact absurd (Option.some.inj h.1).symm h.2
    · have ht : truthyNum (some v) = true := decide_eq_true (by simpa using hv)
      rw [if_pos ht]
      constructor
      · intro h
        refine ⟨h, fun hw => hv ?_⟩
        rw [Option.some.inj h, hw]
      · intro h
        exact h.1

theorem truthy_ite_str (o : Option String) (w : String) :
    (if truthyStr o then o else none) = some w ↔ o = some w ∧ w ≠ "" := by
  cases o with
  | none =>
    rw [if_neg (by decide)]
    simp
  | some v =>
    by_cases hv : v = ""
    · subst hv
      rw [if_neg (by decide)]
      constructor
      · intro h
        exact absurd h (by simp)
      · intro h
        exact absurd (Option.some.inj h.1).symm h.2
    · have ht : truthyStr (some v) = true := decide_eq_true (by simpa using hv)
      rw [if_pos ht]
      constructor
      · intro h
        refine ⟨h, fun hw => hv ?_⟩
        rw [Option.some.inj h, hw]
      · intro h
        exact h.1

/-- Closed instance of the amended C4 at the all-writes-succeed run. -/
theorem decoded_success_creates_tagged_records_witness :
    (∃ e, runMealMedOk.db.journals = DB.empty.journals ++ [e]
        ∧ e.processingStatus = PStatus.completed ∧ e.processingError = none
        ∧ e.parsedData = some pdMealMed)
    ∧ (∃ newMeals, runMealMedOk.db.stores.meals = DB.empty.stores.meals ++ newMeals
        ∧ newMeals.length = pdMealMed.meals.length
        ∧ ∀ rec ∈ newMeals, rec.isFromJournal = true ∧ rec.journalEntryId = 1
            ∧ ∀ i1 ∈ rec.foodItems, ∀ i2 ∈ rec.foodItems,
                i1.quantity = i2.quantity ∧ i1.calories = i2.calories)
    ∧ (∃ newMeds, runMealMedOk.db.stores.medicines = DB.empty.stores.medicines ++ newMeds
        ∧ ∀ rec ∈ newMeds, rec.isFromJournal = true ∧ rec.journalEntryId = 1)
    ∧ (∃ newStats, runMealMedOk.db.stores.bodyStats = DB.empty.stores.bodyStats ++ newStats
        ∧ ∀ rec ∈ newStats, rec.isFromJournal = true ∧ rec.journalEntryId = 1)
    ∧ (∃ newTests, runMealMedOk.db.stores.tests = DB.empty.stores.tests ++ newTests
        ∧ ∀ rec ∈ newTests, rec.isFromJournal = true ∧ rec.journalEntryId = 1) :=
  decoded_success_creates_tagged_records (mkEnvOk (.output "RAW2" (some pdMealMed))) 7
    "ate rice took aspirin" none 5 1 DB.empty "RAW2" pdMealMed
    (by decide) rfl (by decide) (fun _ => rfl) (fun _ => rfl) rfl (fun _ => rfl)

/-! ### C9 — BodyStat record creation and field-by-field population -/

/-- C9 counterexample, two concrete runs: a bodyStats object with no field
present still yields one created BodyStat record (refuting creation only
when at least one field is present), and a present weightKg field with the
JavaScript-falsy value 0 is not populated into the created record (refuting
population of exactly the present fields). -/
theorem bodystat_always_created_cx :
    (bsAllNone.waterIntakeLiters = none ∧ bsAllNone.weightKg = none
      ∧ bsAllNone.sleepHours = none ∧ bsAllNone.steps = none
      ∧ bsAllNone.mood = none ∧ bsAllNone.energy = none
      ∧ runStatNoField.db.stores.bodyStats.length = 1)
    ∧ (bsZeroWeight.weightKg = some 0
      ∧ runStatZeroWeight.db.stores.bodyStats.map BodyStatRecord.weight = [none]
      ∧ runStatZeroWeight.db.journals.map JournalEntry.processingStatus
          = [PStatus.completed]) := by
  decide

/-- C9 as amended: on a successful decode with all writes succeeding, the
fan-out creates at most one BodyStat record, creates it exactly when the
decoded bodyStats object is present (even when no field of it is populated),
and populates in it exactly the fields holding JavaScript-truthy values
(non-zero numbers, non-empty strings); a decoded structure with an empty
meals list and a present bodyStats object yields zero Meal records, exactly
one BodyStat record, and overall status `completed`. -/
theorem bodystat_created_iff_present_truthy_fields
    (env : Env) (uid : Nat) (rawText : String) (dateArg : Option Nat)
    (now fid : Nat) (db : DB) (raw : String) (pd : ParsedData)
    (hvalid : jsTrim rawText ≠ "") (hai : env.ai = .output raw (some pd))
    (hfresh : ∀ e ∈ db.journals, e.id ≠ fid)
    (h1 : ∀ n, env.mealW n = none) (h2 : ∀ n, env.medW n = none)
    (h3 : env.statW = none) (h4 : ∀ n, env.testW n = none) :
    (parseJournalEntry env uid rawText dateArg now fid db).db.stores.bodyStats.length
        = db.stores.bodyStats.length + (if pd.bodyStats.isSome then 1 else 0)
    ∧ (∀ bs, pd.bodyStats = some bs →
        ∃ rec, (parseJournalEntry env uid rawText dateArg now fid db).db.stores.bodyStats
            = db.stores.bodyStats ++ [rec]
          ∧ rec.isFromJournal = true ∧ rec.journalEntryId = fid
          ∧ (∀ w : Int, rec.waterIntake = some w ↔ bs.waterIntakeLiters = some w ∧ w ≠ 0)
          ∧ (∀ w : Int, rec.weight = some w ↔ bs.weightKg = some w ∧ w ≠ 0)
          ∧ (∀ w : Int, rec.sleepHours = some w ↔ bs.sleepHours = some w ∧ w ≠ 0)
          ∧ (∀ w : Int, rec.steps = some w ↔ bs.steps = some w ∧ w ≠ 0)
          ∧ (∀ m : String, rec.mood = some m ↔ bs.mood = some m ∧ m ≠ "")
          ∧ (∀ m : String, rec.energy = some m ↔ bs.energy = some m ∧ m ≠ ""))
    ∧ (pd.meals = [] →
        (parseJournalEntry env uid rawText dateArg now fid db).db.stores.meals
          = db.stores.meals)
    ∧ (∃ e, (parseJournalEntry env uid rawText dateArg now fid db).db.journals
          = db.journals ++ [e] ∧ e.processingStatus = PStatus.completed) := by
  have hfo := fanOut_err_none_of_all env uid fid (dateArg.getD now) pd db.stores h1 h2 h3 h4
  have hst := fanOut_ok_stores env uid fid (dateArg.getD now) pd db.stores hfo
  rw [parse_decoded_ok env uid rawText dateArg now fid db raw pd hvalid hai hfo]
  refine ⟨?_, ?_, ?_,
    completeUpdate pd raw (mkJournalEntry uid fid now rawText dateArg),
    update_insert_journals db fid _ _ hfresh rfl, rfl⟩
  · rw [show (fanOut env uid fid (dateArg.getD now) pd db.stores).1.bodyStats.length
        = _ from congrArg (fun s => s.bodyStats.length) hst]
    simp [optionMapToList_length]
  · intro bs hbs
    refine ⟨mkBodyStatRecord uid fid (dateArg.getD now) bs, ?_, rfl, rfl,
      fun w => truthy_ite_num bs.waterIntakeLiters w,
      fun w => truthy_ite_num bs.weightKg w,
      fun w => truthy_ite_num bs.sleepHours w,
      fun w => truthy_ite_num bs.steps w,
      fun m => truthy_ite_str bs.mood m,
      fun m => truthy_ite_str bs.energy m⟩
    rw [congrArg Stores.bodyStats hst, hbs]
    rfl
  · intro hme
    rw [congrArg Stores.meals hst, hme]
    simp

/-- Closed instance of the amended C9 at the water-only bodyStats run. -/
theorem bodystat_created_iff_present_truthy_fields_witness :
    runStatOnlyOk.db.stores.bodyStats.length
        = DB.empty.stores.bodyStats.length
          + (if pdStatOnly.bodyStats.isSome then 1 else 0)
    ∧ (∀ bs, pdStatOnly.bodyStats = some bs →
        ∃ rec, runStatOnlyOk.db.stores.bodyStats = DB.empty.stores.bodyStats ++ [rec]
          ∧ rec.isFromJournal = true ∧ rec.journalEntryId = 1
          ∧ (∀ w : Int, rec.waterIntake = some w ↔ bs.waterIntakeLiters = some w ∧ w ≠ 0)
          ∧ (∀ w : Int, rec.weight = some w ↔ bs.weightKg = some w ∧ w ≠ 0)
          ∧ (∀ w : Int, rec.sleepHours = some w ↔ bs.sleepHours = some w ∧ w ≠ 0)
          ∧ (∀ w : Int, rec.steps = some w ↔ bs.steps = some w ∧ w ≠ 0)
          ∧ (∀ m : String, rec.mood = some m ↔ bs.mood = some m ∧ m ≠ "")
          ∧ (∀ m : String, rec.energy = some m ↔ bs.energy = some m ∧ m ≠ ""))
    ∧ (pdStatOnly.meals = [] →
        runStatOnlyOk.db.stores.meals = DB.empty.stores.meals)
    ∧ (∃ e, runStatOnlyOk.db.journals = DB.empty.journals ++ [e]
        ∧ e.processingStatus = PStatus.completed) :=
  bodystat_created_iff_present_truthy_fields (mkEnvOk (.output "RAW4" (some pdStatOnly)))
    7 "drank water" none 5 1 DB.empty "RAW4" pdStatOnly
    (by decide) rfl (by decide) (fun _ => rfl) (fun _ => rfl) rfl (fun _ => rfl)

/-! ### C10 — food item defaults and the totalCalories pre-save hook -/

theorem foldl_add_calories (l : List FoodItem) :
    ∀ a : Int, l.foldl (fun t i => t + i.calories) a = a + (l.map FoodItem.calories).sum := by
  induction l with
  | nil => intro a; simp
  | cons x xs ih =>
    intro a
    simp only [List.foldl_cons, List.map_cons, List.sum_cons, ih]
    ring

theorem mealPreSave_totalCalories_sum (uid jid date : Nat) (m : MealData) :
    (mealPreSave (mkMealRecord uid jid date m)).totalCalories
      = ((mealPreSave (mkMealRecord uid jid date m)).foodItems.map FoodItem.calories).sum := by
  rw [mealPreSave_foodItems]
  unfold mealPreSave
  split
  · simp only
    rw [foldl_add_calories]
    simp
  · rename_i h
    have hnil : (mkMealRecord uid jid date m).foodItems = [] := by
      rcases hfi : (mkMealRecord uid jid date m).foodItems with _ | ⟨x, xs⟩
      · rfl
      · exact absurd (by rw [hfi]; simp) h
    rw [hnil]
    simp [mkMealRecord]

/-- C10: in a successful run, the created Meal records correspond one to one
with the decoded meals; when a decoded meal has no quantity every food item
of its record gets the default quantity string `1 serving`, when it has no
calories every food item gets calories 0, and the totalCalories of each record
(set by the Meal pre-save hook) equals the sum of its food item calories. -/
theorem meal_defaults_and_total_calories
    (env : Env) (uid : Nat) (rawText : String) (dateArg : Option Nat)
    (now fid : Nat) (db : DB) (raw : String) (pd : ParsedData)
    (hvalid : jsTrim rawText ≠ "") (hai : env.ai = .output raw (some pd))
    (hfresh : ∀ e ∈ db.journals, e.id ≠ fid)
    (h1 : ∀ n, env.mealW n = none) (h2 : ∀ n, env.medW n = none)
    (h3 : env.statW = none) (h4 : ∀ n, env.testW n = none) :
    List.Forall₂ (fun (m : MealData) (rec : MealRecord) =>
        (m.quantity = none → ∀ it ∈ rec.foodItems, it.quantity = "1 serving")
        ∧ (m.calories = none → ∀ it ∈ rec.foodItems, it.calories = 0)
        ∧ rec.totalCalories = (rec.foodItems.map FoodItem.calories).sum)
      pd.meals
      ((parseJournalEntry env uid rawText dateArg now fid db).db.stores.meals.drop
        db.stores.meals.length) := by
  have hfo := fanOut_err_none_of_all env uid fid (dateArg.getD now) pd db.stores h1 h2 h3 h4
  have hst := fanOut_ok_stores env uid fid (dateArg.getD now) pd db.stores hfo
  rw [parse_decoded_ok env uid rawText dateArg now fid db raw pd hvalid hai hfo]
  rw [congrArg Stores.meals hst]
  rw [List.drop_left]
  rw [List.forall₂_map_right_iff]
  rw [List.forall₂_same]
  intro m _
  refine ⟨?_, ?_, mealPreSave_totalCalories_sum uid fid (dateArg.getD now) m⟩
  · intro hq it hit
    rw [mealPreSave_foodItems] at hit
    obtain ⟨a, _, rfl⟩ := List.mem_map.mp hit
    simp [mkFoodItem, jsStrOr, truthyStr, hq]
  · intro hcal it hit
    rw [mealPreSave_foodItems] at hit
    obtain ⟨a, _, rfl⟩ := List.mem_map.mp hit
    simp [mkFoodItem, jsNumOr, truthyNum, hcal]

/-- Closed instance of C10 at the one-meal run (meal with neither quantity
nor calories). -/
theorem meal_defaults_and_total_calories_witness :
    List.Forall₂ (fun (m : MealData) (rec : MealRecord) =>
        (m.quantity = none → ∀ it ∈ rec.foodItems, it.quantity = "1 serving")
        ∧ (m.calories = none → ∀ it ∈ rec.foodItems, it.calories = 0)
        ∧ rec.totalCalories = (rec.foodItems.map FoodItem.calories).sum)
      pdOneMeal.meals
      (runOneMeal.db.stores.meals.drop DB.empty.stores.meals.length) :=
  meal_defaults_and_total_calories (mkEnvOk (.output "RAW3" (some pdOneMeal))) 7
    "ate rice" none 5 1 DB.empty "RAW3" pdOneMeal
    (by decide) rfl (by decide) (fun _ => rfl) (fun _ => rfl) rfl (fun _ => rfl)

/-! ### C1 — retry re-invocation creates a second JournalEntry -/

/-- C1: evaluating retryProcessing on the failed entry shows the divergence
from the claim: the original entry (id 1) is reset to `pending` with its
error cleared and then abandoned, while the re-invoked handler performs its
own Journal.create, so a second JournalEntry (id 2, same rawText and date)
appears, is the one actually processed to `completed`, and is the id the
response reports. -/
theorem retry_reinvocation_creates_second_entry :
    dbFailed.journals.length = 1
    ∧ runRetry.db.journals.length = 2
    ∧ runRetry.db.journals.map JournalEntry.id = [1, 2]
    ∧ runRetry.db.journals.map JournalEntry.processingStatus
        = [PStatus.pending, PStatus.completed]
    ∧ runRetry.db.journals.map JournalEntry.rawText = ["ate rice", "ate rice"]
    ∧ runRetry.db.journals.map JournalEntry.date = [4, 4]
    ∧ runRetry.resp.journalId = some 2 := by
  decide

/-! ### C8 — the processingError / failed-status invariant -/

theorem mem_pair {α : Type} {d a b : α} (h : d ∈ [a, b]) : d = a ∨ d = b := by
  simpa using h

theorem mkJournalEntry_inv (uid fid now : Nat) (rawText : String)
    (dateArg : Option Nat) : entryInv (mkJournalEntry uid fid now rawText dateArg) := by
  simp [entryInv, mkJournalEntry]

theorem failCatchUpdate_inv (msg : String) (e : JournalEntry) :
    entryInv (failCatchUpdate msg e) := by
  unfold entryInv
  constructor
  · intro _
    rfl
  · intro _
    exact failCatchUpdate_error_nonempty msg e

theorem failDecodeUpdate_inv (raw : String) (e : JournalEntry) :
    entryInv (failDecodeUpdate raw e) := by
  unfold entryInv
  constructor
  · intro _
    rfl
  · intro _
    simp [failDecodeUpdate]

theorem retryResetUpdate_inv (e : JournalEntry) : entryInv (retryResetUpdate e) := by
  simp [entryInv, retryResetUpdate]

theorem completeUpdate_inv (pd : ParsedData) (raw : String) (e : JournalEntry)
    (h : e.processingError = none) : entryInv (completeUpdate pd raw e) := by
  simp [entryInv, completeUpdate, h]

theorem dbInv_insert (db : DB) (e : JournalEntry) (hdb : dbInv db)
    (he : entryInv e) : dbInv (insertJournal db e) := by
  intro x hx
  rcases mem_append_singleton hx with hx | rfl
  · exact hdb x hx
  · exact he

theorem dbInv_update_any (db : DB) (jid : Nat) (f : JournalEntry → JournalEntry)
    (hf : ∀ e, entryInv (f e)) (hdb : dbInv db) : dbInv (updateJournal db jid f) := by
  intro x hx
  rw [updateJournal_journals] at hx
  obtain ⟨e, he, hx⟩ := List.mem_map.mp hx
  subst hx
  by_cases hid : e.id = jid
  · rw [if_pos hid]
    exact hf e
  · rw [if_neg hid]
    exact hdb e he

theorem dbInv_congr {s t : DB} (h : s.journals = t.journals) (ht : dbInv t) :
    dbInv s := by
  intro e he
  rw [h] at he
  exact ht e he

/-- The parse operation preserves the invariant in every intermediate state
and in the final state, provided the fresh id does not collide. -/
theorem parse_preserves_inv (env : Env) (uid : Nat) (rawText : String)
    (dateArg : Option Nat) (now fid : Nat) (db : DB)
    (hdb : dbInv db) (hfresh : ∀ e ∈ db.journals, e.id ≠ fid) :
    (∀ s ∈ (parseJournalEntry env uid rawText dateArg now fid db).states, dbInv s)
    ∧ dbInv (parseJournalEntry env uid rawText dateArg now fid db).db := by
  by_cases hval : jsTrim rawText = ""
  · rw [parse_blank env uid rawText dateArg now fid db hval]
    exact ⟨fun s hs => absurd hs (List.not_mem_nil s), hdb⟩
  · have hdb1 : dbInv (insertJournal db (mkJournalEntry uid fid now rawText dateArg)) :=
      dbInv_insert db _ hdb (mkJournalEntry_inv uid fid now rawText dateArg)
    cases hai : env.ai with
    | transportError msg =>
      rw [parse_transport env uid rawText dateArg now fid db msg hval hai]
      have hdb2 := dbInv_update_any
        (insertJournal db (mkJournalEntry uid fid now rawText dateArg)) fid
        (failCatchUpdate msg) (failCatchUpdate_inv msg) hdb1
      refine ⟨?_, hdb2⟩
      intro s hs
      rcases mem_pair hs with rfl | rfl
      · exact hdb1
      · exact hdb2
    | output raw odec =>
      cases odec with
      | none =>
        rw [parse_decode_failed env uid rawText dateArg now fid db raw hval hai]
        have hdb2 := dbInv_update_any
          (insertJournal db (mkJournalEntry uid fid now rawText dateArg)) fid
          (failDecodeUpdate raw) (failDecodeUpdate_inv raw) hdb1
        refine ⟨?_, hdb2⟩
        intro s hs
        rcases mem_pair hs with rfl | rfl
        · exact hdb1
        · exact hdb2
      | some pd =>
        have hdb2 : dbInv (updateJournal (insertJournal db
            (mkJournalEntry uid fid now rawText dateArg)) fid (completeUpdate pd raw)) := by
          intro x hx
          rw [update_insert_journals db fid _ _ hfresh rfl] at hx
          rcases mem_append_singleton hx with hx | rfl
          · exact hdb x hx
          · exact completeUpdate_inv pd raw _ rfl
        cases hfo : (fanOut env uid fid (dateArg.getD now) pd db.stores).2.2 with
        | none =>
          rw [parse_decoded_ok env uid rawText dateArg now fid db raw pd hval hai hfo]
          refine ⟨?_, dbInv_congr rfl hdb2⟩
          intro s hs
          rcases mem_two_cons_append hs with rfl | rfl | hs
          · exact hdb1
          · exact hdb2
          · obtain ⟨st, _, heq⟩ := List.mem_map.mp hs
            subst heq
            exact dbInv_congr rfl hdb2
        | some msg =>
          rw [parse_write_failed env uid rawText dateArg now fid db raw pd msg hval hai hfo]
          have hdb4 := dbInv_update_any
            { journals := (updateJournal (insertJournal db
                (mkJournalEntry uid fid now rawText dateArg)) fid
                (completeUpdate pd raw)).journals
              stores := (fanOut env uid fid (dateArg.getD now) pd db.stores).1 }
            fid (failCatchUpdate msg) (failCatchUpdate_inv msg) (dbInv_congr rfl hdb2)
          refine ⟨?_, hdb4⟩
          intro s hs
          rcases mem_two_cons_append_last hs with rfl | rfl | hs | rfl
          · exact hdb1
          · exact hdb2
          · obtain ⟨st, _, heq⟩ := List.mem_map.mp hs
            subst heq
            exact dbInv_congr rfl hdb2
          · exact hdb4

/-- The retry operation preserves the invariant in every intermediate state
and in the final state. -/
theorem retry_preserves_inv (env : Env) (uid jid now fid : Nat) (db : DB)
    (hdb : dbInv db) (hfresh : ∀ e ∈ db.journals, e.id ≠ fid) :
    (∀ s ∈ (retryProcessing env uid jid now fid db).states, dbInv s)
    ∧ dbInv (retryProcessing env uid jid now fid db).db := by
  cases hfind : findJournal db jid uid with
  | none =>
    rw [retry_not_found env uid jid now fid db hfind]
    exact ⟨fun s hs => absurd hs (List.not_mem_nil s), hdb⟩
  | some j =>
    by_cases hst : j.processingStatus = PStatus.failed
    case neg =>
      rw [retry_invalid_state env uid jid now fid db j hfind hst]
      exact ⟨fun s hs => absurd hs (List.not_mem_nil s), hdb⟩
    case pos =>
      rw [retry_failed_run env uid jid now fid db j hfind hst]
      have hdb1 : dbInv (updateJournal db jid retryResetUpdate) :=
        dbInv_update_any db jid retryResetUpdate retryResetUpdate_inv hdb
      have hfresh1 : ∀ e ∈ (updateJournal db jid retryResetUpdate).journals,
          e.id ≠ fid := by
        intro e he
        rw [updateJournal_journals] at he
        obtain ⟨x, hx, he⟩ := List.mem_map.mp he
        subst he
        by_cases hid : x.id = jid
        · rw [if_pos hid]
          exact hfresh x hx
        · rw [if_neg hid]
          exact hfresh x hx
      have hp := parse_preserves_inv env uid j.rawText (some j.date) now fid
        (updateJournal db jid retryResetUpdate) hdb1 hfresh1
      refine ⟨?_, hp.2⟩
      intro s hs
      rcases List.mem_cons.mp hs with rfl | hs
      · exact hdb1
      · exact hp.1 s hs

/-- C8: in every database state reachable by the pipeline operations
(submit with its transport-failure, decode-failure, write-failure and
completed branches, and retry with its reset), every journal entry has a
non-empty processingError exactly when its status is `failed`. -/
theorem reachable_error_iff_failed (db : DB) (h : Reachable db) : dbInv db := by
  induction h with
  | init => exact fun e he => absurd he (List.not_mem_nil e)
  | parseMid db env uid rawText dateArg now fid s hr hfresh hs ih =>
    exact (parse_preserves_inv env uid rawText dateArg now fid db ih hfresh).1 s hs
  | parseFin db env uid rawText dateArg now fid hr hfresh ih =>
    exact (parse_preserves_inv env uid rawText dateArg now fid db ih hfresh).2
  | retryMid db env uid jid now fid s hr hfresh hs ih =>
    exact (retry_preserves_inv env uid jid now fid db ih hfresh).1 s hs
  | retryFin db env uid jid now fid hr hfresh ih =>
    exact (retry_preserves_inv env uid jid now fid db ih hfresh).2

/-- Closed instance of C8: the invariant holds in the final state of a
concrete submit run reached from the empty database. -/
theorem reachable_error_iff_failed_witness :
    dbInv (parseJournalEntry (mkEnvOk (.output "RAW8" (some pdEmpty))) 7 "slept early"
      none 3 1 DB.empty).db :=
  reachable_error_iff_failed _
    (Reachable.parseFin DB.empty (mkEnvOk (.output "RAW8" (some pdEmpty))) 7
      "slept early" none 3 1 Reachable.init (by decide))
